import Mathlib

/-
  Verification of the PlatformIO MCP server's command-execution layer.

  Shallow embedding of the operation handlers in src/tools/build.ts and
  src/tools/upload.ts (build, clean, target, list-targets, upload,
  upload-and-monitor, build-and-upload, upload-filesystem), of the tool-call
  dispatch in src/index.ts, and of the parameter schemas in src/types.ts.

  The Process Executor (src/platformio.ts) is abstracted as an oracle
  `Exec : ExecRequest → Except PioError CommandResult`: a handler is embedded
  as a function of the oracle that returns both the list of executor
  invocations it performed (its trace) and its result, where a thrown
  JavaScript error is an `Except.error`.

  JavaScript string primitives (split, trim, startsWith, includes) are
  embedded as structurally recursive functions over the character list of a
  `String`, so that every definition evaluates by kernel reduction.
-/

/-! ## JavaScript string primitives -/

/-- JS `sep`-split on a single character: `splitOnCharList sep cs` is the list
of chunks of `cs` delimited by `sep`, empty chunks preserved. -/
def splitOnCharList (sep : Char) : List Char → List (List Char)
  | [] => [[]]
  | c :: rest =>
    let r := splitOnCharList sep rest
    if c = sep then [] :: r
    else
      match r with
      | [] => [[c]]
      | h :: t => (c :: h) :: t

/-- JS `s.split(sep)` for a one-character separator. -/
def jsSplit (s : String) (sep : Char) : List String :=
  (splitOnCharList sep s.data).map (fun l => ⟨l⟩)

/-- JS `s.trim()`: strip leading and trailing whitespace. -/
def jsTrim (s : String) : String :=
  ⟨((s.data.dropWhile Char.isWhitespace).reverse.dropWhile Char.isWhitespace).reverse⟩

/-- JS `s.startsWith(p)`. -/
def jsStartsWith (s p : String) : Bool :=
  p.data.isPrefixOf s.data

/-- JS `s.includes(c)` for a single character. -/
def jsIncludesChar (s : String) (c : Char) : Bool :=
  s.data.contains c

/-- JS emptiness test on a string. -/
def jsIsEmpty (s : String) : Bool :=
  s.data.isEmpty

/-- Substring test over character lists, structural in the haystack. -/
def listContainsSub (pat : List Char) : List Char → Bool
  | [] => pat.isEmpty
  | c :: t => pat.isPrefixOf (c :: t) || listContainsSub pat t

/-- JS `hay.includes(pat)` for a string pattern. -/
def jsIncludes (hay pat : String) : Bool :=
  listContainsSub pat.data hay.data

/-- JS truthiness of an optional string parameter: `undefined` and `""` are
falsy, every other string is truthy. -/
def strTruthy : Option String → Bool
  | none => false
  | some s => !s.data.isEmpty

/-- JS `o || d` on an optional string: the string itself when truthy,
otherwise the default. -/
def orDefault (o : Option String) (d : String) : String :=
  match o with
  | some s => if s.data.isEmpty then d else s
  | none => d

/-! ## Data model -/

/-- Outcome of one external process invocation: the captured streams and the
exit code (`CommandResult` in src/types.ts). -/
structure CommandResult where
  stdout : String
  stderr : String
  exitCode : Int
deriving Repr, DecidableEq

/-- One request to the Process Executor: the pio subcommand, the argument
vector, the working directory, and the timeout in milliseconds — the
arguments of `platformioExecutor.execute` in src/tools/build.ts and
src/tools/upload.ts. -/
structure ExecRequest where
  command : String
  args : List String
  cwd : String
  timeout : Nat
deriving Repr, DecidableEq

/-- A failure raised by the Process Executor itself (`PlatformIOError` in
src/utils/errors.ts); the handlers observe only its message. -/
structure PioError where
  message : String
deriving Repr, DecidableEq

/-- An error thrown by a handler: a validation rejection of a path, or a
`BuildError` / `UploadError` carrying a message and a context object mapping
field names to (possibly undefined) string values. -/
inductive HandlerError where
  | invalidPath (message : String)
  | buildError (message : String) (context : List (String × Option String))
  | uploadError (message : String) (context : List (String × Option String))
deriving Repr, DecidableEq

/-- Structure `BuildResult` in src/types.ts. -/
structure BuildResult where
  success : Bool
  environment : String
  output : String
  errors : Option (List String)
deriving Repr, DecidableEq

/-- Structure `CleanResult` in src/types.ts. -/
structure CleanResult where
  success : Bool
  message : String
deriving Repr, DecidableEq

/-- Structure `UploadResult` in src/types.ts. -/
structure UploadResult where
  success : Bool
  port : Option String
  output : String
  errors : Option (List String)
deriving Repr, DecidableEq

/-- The Process Executor abstracted as an oracle: each invocation either
returns a `CommandResult` or throws a `PioError`. -/
def Exec : Type := ExecRequest → Except PioError CommandResult

/-! ## Input Validator (modelled from the spec) -/

/-- Modelled from the spec: src/utils/validation.ts is not in the source
tree. §4.1 identifier validation — an environment name must match a
restricted character class (alphanumeric, hyphen, underscore, dot) and a
maximum length; case is preserved and significant; pure, no I/O. -/
def validateEnvironmentName (name : String) : Bool :=
  decide (0 < name.data.length) && decide (name.data.length ≤ 64) &&
    name.data.all (fun c => c.isAlphanum || c = '-' || c = '_' || c = '.')

/-- Modelled from the spec: src/utils/validation.ts is not in the source
tree. §4.1 serial-port validation — the port must match a device-file path
shape or a COM-port shape; syntax only, existence is not checked. -/
def validateSerialPort (port : String) : Bool :=
  (jsStartsWith port "/dev/" && decide (5 < port.data.length) &&
    ((port.data.drop 5).all
      (fun c => c.isAlphanum || c = '-' || c = '_' || c = '.' || c = '/'))) ||
  (jsStartsWith port "COM" && decide (3 < port.data.length) &&
    (port.data.drop 3).all Char.isDigit)

/-- Resolves `.` and `..` segments of a slash-split path against a stack of
already-accepted segments; `none` when a `..` would climb above the root. -/
def resolveSegs (acc : List String) : List String → Option (List String)
  | [] => some acc.reverse
  | s :: rest =>
    if s = "" || s = "." then resolveSegs acc rest
    else if s = ".." then
      match acc with
      | [] => none
      | _ :: acc' => resolveSegs acc' rest
    else resolveSegs (s :: acc) rest

/-- Shell metacharacters rejected in paths as defense-in-depth (§4.1). -/
def shellMeta : List Char := [';', '&', '|', '$', '<', '>', '\n']

/-- Join path segments with slashes. -/
def joinSegs (sep : String) : List String → String
  | [] => ""
  | [s] => s
  | s :: rest => s ++ sep ++ joinSegs sep rest

/-- Modelled from the spec: src/utils/validation.ts is not in the source
tree. §4.1 path validation — rejects empty strings, null bytes and shell
metacharacters, normalizes `.` and `..` segments, rejects a path whose
normalization escapes its root, and otherwise returns the normalized path.
On rejection it throws `InvalidPath`. -/
def validateProjectPath (input : String) : Except HandlerError String :=
  if input.data.isEmpty then
    .error (.invalidPath "InvalidPath: empty path")
  else if input.data.any (fun c => c = '\x00' || shellMeta.contains c) then
    .error (.invalidPath ("InvalidPath: illegal character in path: " ++ input))
  else
    match resolveSegs [] (jsSplit input '/') with
    | none => .error (.invalidPath ("InvalidPath: path escapes project root: " ++ input))
    | some segs =>
      .ok ((if jsStartsWith input "/" then "/" else "") ++ joinSegs "/" segs)

/-! ## Output Interpreter (modelled from the spec) -/

/-- The known failure-signature substrings scanned for in stderr (§4.3). -/
def errorSignatures : List String :=
  ["command not found", "unrecognized option", "permission denied",
   "could not open port", "is busy"]

/-- Deduplicate a list keeping the first occurrence of each element. -/
def dedupKeepFirst (l : List String) : List String :=
  (l.foldl (fun acc x => if acc.contains x then acc else x :: acc) []).reverse

/-- Modelled from the spec: src/utils/errors.ts is not in the source tree.
§4.3 — `parseStderrErrors` scans stderr for the known signature substrings
and extracts the matching trimmed lines in source order, deduplicated; when
no signature matches it falls back to the last non-empty stderr line, so the
list is never empty when stderr is non-empty. -/
def parseStderrErrors (stderr : String) : List String :=
  let lines := ((jsSplit stderr '\n').map jsTrim).filter (fun l => !jsIsEmpty l)
  let hits := lines.filter (fun l => errorSignatures.any (fun sig => jsIncludes l sig))
  if hits.isEmpty then
    match lines.getLast? with
    | some l => [l]
    | none => []
  else dedupKeepFirst hits

/-! ## Operation Handlers (src/tools/build.ts, src/tools/upload.ts)

Each handler returns the list of executor invocations it performed together
with its result; a thrown error is an `Except.error`. The trace is computed
before the executor's answer is inspected, since the invocation happens
either way. -/

/-- Handler `buildProject` (src/tools/build.ts): validate the project path, validate
a truthy environment name, then run `pio run` (with `--environment` when one
was given) in the validated directory with a 600000 ms timeout, and interpret
the outcome: success iff exit code 0, output is raw stdout, errors parsed
from stderr on failure. -/
def buildProject (exec : Exec) (projectDir : String) (environment : Option String) :
    List ExecRequest × Except HandlerError BuildResult :=
  match validateProjectPath projectDir with
  | .error e => ([], .error e)
  | .ok validatedPath =>
    if strTruthy environment && !validateEnvironmentName (environment.getD "") then
      ([], .error (.buildError ("Invalid environment name: " ++ environment.getD "")
        [("environment", environment)]))
    else
      let args := if strTruthy environment then ["--environment", environment.getD ""] else []
      let req : ExecRequest := ⟨"run", args, validatedPath, 600000⟩
      ([req],
        match exec req with
        | .ok result =>
          .ok { success := result.exitCode == 0
                environment := orDefault environment "default"
                output := result.stdout
                errors := if result.exitCode == 0 then none
                          else some (parseStderrErrors result.stderr) }
        | .error e =>
          .error (.buildError ("Build failed: " ++ e.message)
            [("projectDir", some projectDir), ("environment", environment)]))

/-- Handler `cleanProject` (src/tools/build.ts): validate the path, run
`pio run --target clean` with a 60000 ms timeout; non-zero exit throws a
`BuildError` carrying stderr. -/
def cleanProject (exec : Exec) (projectDir : String) :
    List ExecRequest × Except HandlerError CleanResult :=
  match validateProjectPath projectDir with
  | .error e => ([], .error e)
  | .ok validatedPath =>
    let req : ExecRequest := ⟨"run", ["--target", "clean"], validatedPath, 60000⟩
    ([req],
      match exec req with
      | .ok result =>
        if result.exitCode == 0 then
          .ok ⟨true, "Successfully cleaned build artifacts"⟩
        else
          .error (.buildError ("Clean failed: " ++ result.stderr)
            [("projectDir", some projectDir), ("stderr", some result.stderr)])
      | .error e =>
        .error (.buildError ("Failed to clean project: " ++ e.message)
          [("projectDir", some projectDir)]))

/-- Handler `buildTarget` (src/tools/build.ts): validate the path and a truthy
environment name, then run `pio run --target <target>`; the `target`
parameter itself is placed in the argument vector without validation. -/
def buildTarget (exec : Exec) (projectDir target : String) (environment : Option String) :
    List ExecRequest × Except HandlerError BuildResult :=
  match validateProjectPath projectDir with
  | .error e => ([], .error e)
  | .ok validatedPath =>
    if strTruthy environment && !validateEnvironmentName (environment.getD "") then
      ([], .error (.buildError ("Invalid environment name: " ++ environment.getD "")
        [("environment", environment)]))
    else
      let args := ["--target", target] ++
        (if strTruthy environment then ["--environment", environment.getD ""] else [])
      let req : ExecRequest := ⟨"run", args, validatedPath, 600000⟩
      ([req],
        match exec req with
        | .ok result =>
          .ok { success := result.exitCode == 0
                environment := orDefault environment "default"
                output := result.stdout
                errors := if result.exitCode == 0 then none
                          else some (parseStderrErrors result.stderr) }
        | .error e =>
          .error (.buildError ("Target failed: " ++ e.message)
            [("projectDir", some projectDir), ("target", some target),
             ("environment", environment)]))

/-- Handler `listTargets` (src/tools/build.ts): validate the path, run
`pio run --list-targets` (appending `--environment` when one was given,
without validating it) with a 30000 ms timeout; on exit code 0 return the
trimmed non-empty stdout lines that do not start with "Environment" and do
not contain a colon, in order; otherwise throw a `BuildError` whose context
carries stderr. -/
def listTargets (exec : Exec) (projectDir : String) (environment : Option String) :
    List ExecRequest × Except HandlerError (List String) :=
  match validateProjectPath projectDir with
  | .error e => ([], .error e)
  | .ok validatedPath =>
    let args := ["--list-targets"] ++
      (if strTruthy environment then ["--environment", environment.getD ""] else [])
    let req : ExecRequest := ⟨"run", args, validatedPath, 30000⟩
    ([req],
      match exec req with
      | .ok result =>
        if result.exitCode != 0 then
          .error (.buildError "Failed to list targets"
            [("projectDir", some projectDir), ("stderr", some result.stderr)])
        else
          .ok (((jsSplit result.stdout '\n').map jsTrim).filter
            (fun t => !jsIsEmpty t && !jsStartsWith t "Environment" && !jsIncludesChar t ':'))
      | .error e =>
        .error (.buildError ("Failed to list build targets: " ++ e.message)
          [("projectDir", some projectDir)]))

/-- Handler `uploadFirmware` (src/tools/upload.ts): validate path, truthy environment
and truthy port; build the local vector `["run", "--target", "upload", ...]`
and execute with its first element dropped (`args.slice(1)`) under a
300000 ms timeout; interpret the outcome as for builds. -/
def uploadFirmware (exec : Exec) (projectDir : String) (port environment : Option String) :
    List ExecRequest × Except HandlerError UploadResult :=
  match validateProjectPath projectDir with
  | .error e => ([], .error e)
  | .ok validatedPath =>
    if strTruthy environment && !validateEnvironmentName (environment.getD "") then
      ([], .error (.uploadError ("Invalid environment name: " ++ environment.getD "")
        [("environment", environment)]))
    else if strTruthy port && !validateSerialPort (port.getD "") then
      ([], .error (.uploadError ("Invalid serial port: " ++ port.getD "")
        [("port", port)]))
    else
      let args := ["run", "--target", "upload"] ++
        (if strTruthy environment then ["--environment", environment.getD ""] else []) ++
        (if strTruthy port then ["--upload-port", port.getD ""] else [])
      let req : ExecRequest := ⟨"run", args.drop 1, validatedPath, 300000⟩
      ([req],
        match exec req with
        | .ok result =>
          .ok { success := result.exitCode == 0
                port := port
                output := result.stdout
                errors := if result.exitCode == 0 then none
                          else some (parseStderrErrors result.stderr) }
        | .error e =>
          .error (.uploadError ("Upload failed: " ++ e.message)
            [("projectDir", some projectDir), ("port", port), ("environment", environment)]))

/-- Handler `uploadAndMonitor` (src/tools/upload.ts): as `uploadFirmware`, but the
local vector is `["run", "--target", "upload", "--target", "monitor", ...]`,
and a truthy port is appended under both `--upload-port` and
`--monitor-port`; executed with the leading "run" dropped by
`args.slice(1)`. -/
def uploadAndMonitor (exec : Exec) (projectDir : String) (port environment : Option String) :
    List ExecRequest × Except HandlerError UploadResult :=
  match validateProjectPath projectDir with
  | .error e => ([], .error e)
  | .ok validatedPath =>
    if strTruthy environment && !validateEnvironmentName (environment.getD "") then
      ([], .error (.uploadError ("Invalid environment name: " ++ environment.getD "")
        [("environment", environment)]))
    else if strTruthy port && !validateSerialPort (port.getD "") then
      ([], .error (.uploadError ("Invalid serial port: " ++ port.getD "")
        [("port", port)]))
    else
      let args := ["run", "--target", "upload", "--target", "monitor"] ++
        (if strTruthy environment then ["--environment", environment.getD ""] else []) ++
        (if strTruthy port then ["--upload-port", port.getD "",
                                 "--monitor-port", port.getD ""] else [])
      let req : ExecRequest := ⟨"run", args.drop 1, validatedPath, 300000⟩
      ([req],
        match exec req with
        | .ok result =>
          .ok { success := result.exitCode == 0
                port := port
                output := result.stdout
                errors := if result.exitCode == 0 then none
                          else some (parseStderrErrors result.stderr) }
        | .error e =>
          .error (.uploadError ("Upload and monitor failed: " ++ e.message)
            [("projectDir", some projectDir), ("port", port), ("environment", environment)]))

/-- Handler `buildAndUpload` (src/tools/upload.ts): delegates to `uploadFirmware`,
relying on the upload target building first when needed. -/
def buildAndUpload (exec : Exec) (projectDir : String) (port environment : Option String) :
    List ExecRequest × Except HandlerError UploadResult :=
  uploadFirmware exec projectDir port environment

/-- Handler `uploadFilesystem` (src/tools/upload.ts): as `uploadFirmware` with the
`uploadfs` target. -/
def uploadFilesystem (exec : Exec) (projectDir : String) (port environment : Option String) :
    List ExecRequest × Except HandlerError UploadResult :=
  match validateProjectPath projectDir with
  | .error e => ([], .error e)
  | .ok validatedPath =>
    if strTruthy environment && !validateEnvironmentName (environment.getD "") then
      ([], .error (.uploadError ("Invalid environment name: " ++ environment.getD "")
        [("environment", environment)]))
    else if strTruthy port && !validateSerialPort (port.getD "") then
      ([], .error (.uploadError ("Invalid serial port: " ++ port.getD "")
        [("port", port)]))
    else
      let args := ["run", "--target", "uploadfs"] ++
        (if strTruthy environment then ["--environment", environment.getD ""] else []) ++
        (if strTruthy port then ["--upload-port", port.getD ""] else [])
      let req : ExecRequest := ⟨"run", args.drop 1, validatedPath, 300000⟩
      ([req],
        match exec req with
        | .ok result =>
          .ok { success := result.exitCode == 0
                port := port
                output := result.stdout
                errors := if result.exitCode == 0 then none
                          else some (parseStderrErrors result.stderr) }
        | .error e =>
          .error (.uploadError ("Filesystem upload failed: " ++ e.message)
            [("projectDir", some projectDir), ("port", port), ("environment", environment)]))

/-! ## Tool-call dispatch (src/index.ts) and parameter schemas (src/types.ts) -/

/-- The raw `arguments` object of a tool-call request, restricted to the
fields the modelled schemas read; an absent field is `none`. -/
structure RawToolArgs where
  projectDir : Option String := none
  environment : Option String := none
  port : Option String := none
  query : Option String := none
  limit : Option Int := none
deriving Repr, DecidableEq

/-- An error thrown inside the dispatch `try` block: a Zod schema rejection,
a handler error, or a plain `Error` (such as the unknown-tool throw). -/
inductive ThrownError where
  | zodError (message : String)
  | handlerError (e : HandlerError)
  | genericError (message : String)
deriving Repr, DecidableEq

/-- Modelled from the spec: src/utils/errors.ts is not in the source tree.
`formatPlatformIOError` renders any thrown failure as a human-readable
message (§6: every failure surfaced to the transport carries one). -/
def formatPlatformIOError : ThrownError → String
  | .zodError m => m
  | .handlerError (.invalidPath m) => m
  | .handlerError (.buildError m _) => m
  | .handlerError (.uploadError m _) => m
  | .genericError m => m

/-- Schema `BuildProjectParamsSchema.parse` (src/types.ts): `projectDir` required
and non-empty, `environment` optional. -/
def parseBuildProjectParams (a : RawToolArgs) : Except ThrownError (String × Option String) :=
  match a.projectDir with
  | none => .error (.zodError "projectDir: Required")
  | some p =>
    if jsIsEmpty p then .error (.zodError "projectDir: String must contain at least 1 character")
    else .ok (p, a.environment)

/-- Schema `CleanProjectParamsSchema.parse` (src/types.ts). -/
def parseCleanProjectParams (a : RawToolArgs) : Except ThrownError String :=
  match a.projectDir with
  | none => .error (.zodError "projectDir: Required")
  | some p =>
    if jsIsEmpty p then .error (.zodError "projectDir: String must contain at least 1 character")
    else .ok p

/-- Schemas `UploadFirmwareParamsSchema.parse` and `UploadFilesystemParamsSchema.parse`
(src/types.ts): `projectDir` required and non-empty, `port` and
`environment` optional. -/
def parseUploadParams (a : RawToolArgs) :
    Except ThrownError (String × Option String × Option String) :=
  match a.projectDir with
  | none => .error (.zodError "projectDir: Required")
  | some p =>
    if jsIsEmpty p then .error (.zodError "projectDir: String must contain at least 1 character")
    else .ok (p, a.port, a.environment)

/-- Schema `SearchLibrariesParamsSchema.parse` (src/types.ts): `query` required and
non-empty; `limit` is `z.number().optional().default(20)` — an absent limit
parses to 20, a supplied limit passes through unchanged (no positivity
constraint in this schema). -/
def parseSearchLibrariesParams (a : RawToolArgs) : Except ThrownError (String × Int) :=
  match a.query with
  | none => .error (.zodError "query: Required")
  | some q =>
    if jsIsEmpty q then .error (.zodError "query: String must contain at least 1 character")
    else
      match a.limit with
      | none => .ok (q, 20)
      | some l => .ok (q, l)

/-- Serialization of a result to the response text; stands in for
`JSON.stringify` in src/index.ts, whose exact formatting no claim depends
on. -/
def renderBuildResult (r : BuildResult) : String :=
  "success=" ++ (if r.success then "true" else "false") ++
    "; environment=" ++ r.environment ++ "; output=" ++ r.output

/-- Serialization of an upload result; stands in for `JSON.stringify`. -/
def renderUploadResult (r : UploadResult) : String :=
  "success=" ++ (if r.success then "true" else "false") ++
    "; port=" ++ (match r.port with | some p => p | none => "") ++
    "; output=" ++ r.output

/-- Serialization of a clean result; stands in for `JSON.stringify`. -/
def renderCleanResult (r : CleanResult) : String :=
  "success=" ++ (if r.success then "true" else "false") ++ "; message=" ++ r.message

/-- The tool names whose handlers live outside src/tools/build.ts and
src/tools/upload.ts (boards, devices, projects, monitor, libraries); their
parse-and-run bodies are abstracted by the `other` oracle in
`dispatchToolCall`. -/
def otherToolNames : List String :=
  ["list_boards", "get_board_info", "list_devices", "init_project",
   "start_monitor", "install_library", "list_installed_libraries"]

/-- The `try` block of the `CallToolRequestSchema` handler in src/index.ts:
dispatch on the tool name, parse the arguments with the tool's schema, run
the handler, and serialize its result; an unknown tool name throws. The
handlers missing from the source tree are abstracted by the oracles
`other` (their whole case body) and `searchLib` (the `searchLibraries`
call, after the schema parse that is in src/types.ts). -/
def dispatchToolCall (exec : Exec)
    (other : String → RawToolArgs → Except ThrownError String)
    (searchLib : String → Int → Except ThrownError String)
    (name : String) (args : RawToolArgs) : Except ThrownError String :=
  if name = "build_project" then
    match parseBuildProjectParams args with
    | .error e => .error e
    | .ok (p, env) =>
      match (buildProject exec p env).2 with
      | .error e => .error (.handlerError e)
      | .ok r => .ok (renderBuildResult r)
  else if name = "clean_project" then
    match parseCleanProjectParams args with
    | .error e => .error e
    | .ok p =>
      match (cleanProject exec p).2 with
      | .error e => .error (.handlerError e)
      | .ok r => .ok (renderCleanResult r)
  else if name = "upload_firmware" then
    match parseUploadParams args with
    | .error e => .error e
    | .ok (p, port, env) =>
      match (uploadFirmware exec p port env).2 with
      | .error e => .error (.handlerError e)
      | .ok r => .ok (renderUploadResult r)
  else if name = "upload_filesystem" then
    match parseUploadParams args with
    | .error e => .error e
    | .ok (p, port, env) =>
      match (uploadFilesystem exec p port env).2 with
      | .error e => .error (.handlerError e)
      | .ok r => .ok (renderUploadResult r)
  else if name = "search_libraries" then
    match parseSearchLibrariesParams args with
    | .error e => .error e
    | .ok (q, limit) => searchLib q limit
  else if otherToolNames.contains name then
    other name args
  else
    .error (.genericError ("Unknown tool: " ++ name))

/-- A response on the transport: the text content and the `isError` mark
(absent in the source's success object, hence `false`). -/
structure ToolResponse where
  text : String
  isError : Bool
deriving Repr, DecidableEq

/-- The whole `CallToolRequestSchema` handler in src/index.ts: the `try`
block's value on success, and the `catch` block — which turns any thrown
error into a content result marked `isError := true` whose text is
`"Error: "` followed by the formatted message — on failure. Total by
construction: every request yields a response. -/
def handleCallToolRequest (exec : Exec)
    (other : String → RawToolArgs → Except ThrownError String)
    (searchLib : String → Int → Except ThrownError String)
    (name : String) (args : RawToolArgs) : ToolResponse :=
  match dispatchToolCall exec other searchLib name args with
  | .ok payload => ⟨payload, false⟩
  | .error e => ⟨"Error: " ++ formatPlatformIOError e, true⟩

/-! ## Concrete executor stubs used by witnesses and counterexamples -/

/-- An executor stub that always exits 0 with empty streams. -/
def execStub : Exec := fun _ => .ok ⟨"", "", 0⟩

/-- C1: violated in the code. At the Validator→Executor boundary,
`listTargets` pushes its raw `environment` parameter and `buildTarget` its
raw `target` parameter into the argument vector without any validator call:
here the identifier "bad env" fails `validateEnvironmentName`, yet the
executor invocation of `listTargets` carries it verbatim, and likewise the
identifier "evil;rm -rf" reaches the executor through `buildTarget`. -/
theorem C1_rawIdentifierReachesExecutor :
    validateEnvironmentName "bad env" = false ∧
    (listTargets execStub "/tmp/proj" (some "bad env")).1 =
      [⟨"run", ["--list-targets", "--environment", "bad env"], "/tmp/proj", 30000⟩] ∧
    validateEnvironmentName "evil;rm -rf" = false ∧
    (buildTarget execStub "/tmp/proj" "evil;rm -rf" none).1 =
      [⟨"run", ["--target", "evil;rm -rf"], "/tmp/proj", 600000⟩] :=
  ⟨rfl, rfl, rfl, rfl⟩

/-- C2 counterexample: the claim as stated is false on the code. For the
input `environment = "my env"`, which fails `validateEnvironmentName`,
`listTargets` does not raise a validation error and does invoke the
executor. -/
theorem C2_listTargetsSpawnsOnInvalidEnvironment :
    validateEnvironmentName "my env" = false ∧
    (listTargets execStub "/home/user/proj" (some "my env")).1 ≠ [] ∧
    (listTargets execStub "/home/user/proj" (some "my env")).2 =
      .ok [] :=
  ⟨rfl, by decide, rfl⟩

/-- C2 (amended): a projectDir failing path validation makes every handler
raise that validation error with no executor invocation; an environment
failing `validateEnvironmentName` is raised without spawning by the five
handlers that validate it (`listTargets` excluded, since it never validates
its environment); a port failing `validateSerialPort` is raised without
spawning by the three upload handlers. -/
theorem C2_validationFailuresNeverSpawn (exec : Exec) (pd target : String)
    (env port : Option String) :
    (∀ e, validateProjectPath pd = .error e →
      buildProject exec pd env = ([], .error e) ∧
      cleanProject exec pd = ([], .error e) ∧
      buildTarget exec pd target env = ([], .error e) ∧
      listTargets exec pd env = ([], .error e) ∧
      uploadFirmware exec pd port env = ([], .error e) ∧
      uploadAndMonitor exec pd port env = ([], .error e) ∧
      uploadFilesystem exec pd port env = ([], .error e)) ∧
    (∀ vp, validateProjectPath pd = .ok vp →
      (strTruthy env && !validateEnvironmentName (env.getD "")) = true →
      buildProject exec pd env = ([], .error (.buildError
        ("Invalid environment name: " ++ env.getD "") [("environment", env)])) ∧
      buildTarget exec pd target env = ([], .error (.buildError
        ("Invalid environment name: " ++ env.getD "") [("environment", env)])) ∧
      uploadFirmware exec pd port env = ([], .error (.uploadError
        ("Invalid environment name: " ++ env.getD "") [("environment", env)])) ∧
      uploadAndMonitor exec pd port env = ([], .error (.uploadError
        ("Invalid environment name: " ++ env.getD "") [("environment", env)])) ∧
      uploadFilesystem exec pd port env = ([], .error (.uploadError
        ("Invalid environment name: " ++ env.getD "") [("environment", env)]))) ∧
    (∀ vp, validateProjectPath pd = .ok vp →
      (strTruthy env && !validateEnvironmentName (env.getD "")) = false →
      (strTruthy port && !validateSerialPort (port.getD "")) = true →
      uploadFirmware exec pd port env = ([], .error (.uploadError
        ("Invalid serial port: " ++ port.getD "") [("port", port)])) ∧
      uploadAndMonitor exec pd port env = ([], .error (.uploadError
        ("Invalid serial port: " ++ port.getD "") [("port", port)])) ∧
      uploadFilesystem exec pd port env = ([], .error (.uploadError
        ("Invalid serial port: " ++ port.getD "") [("port", port)]))) := by
  refine ⟨fun e he => ?_, fun vp hv henv => ?_, fun vp hv henv hport => ?_⟩
  · simp [buildProject, cleanProject, buildTarget, listTargets, uploadFirmware,
      uploadAndMonitor, uploadFilesystem, he]
  · simp [buildProject, buildTarget, uploadFirmware, uploadAndMonitor,
      uploadFilesystem, hv, henv]
  · simp [uploadFirmware, uploadAndMonitor, uploadFilesystem, hv, henv, hport]

/-- C2 witness: the amended theorem applied at concrete inputs — the empty
projectDir is rejected with no spawn, and an invalid port is rejected by
`uploadFirmware` with no spawn. -/
theorem C2_validationFailuresNeverSpawn_witness :
    buildProject execStub "" none = ([], .error (.invalidPath "InvalidPath: empty path")) ∧
    uploadFirmware execStub "/tmp/proj" (some "not a port") none =
      ([], .error (.uploadError "Invalid serial port: not a port"
        [("port", some "not a port")])) := by
  refine ⟨((C2_validationFailuresNeverSpawn execStub "" "t" none none).1
    (.invalidPath "InvalidPath: empty path") rfl).1, ?_⟩
  exact ((C2_validationFailuresNeverSpawn execStub "/tmp/proj" "t" none
    (some "not a port")).2.2 "/tmp/proj" rfl rfl rfl).1

/-- An executor stub that exits 0 with fixed stdout. -/
def execOk : Exec := fun _ => .ok ⟨"BUILD OK", "", 0⟩

/-- An executor stub that exits 1 with fixed stderr. -/
def execFail : Exec := fun _ => .ok ⟨"", "Error: permission denied\n", 1⟩

/-- C3: for every executor outcome, the build and upload handlers report
success exactly when the exit code is 0; the output field is the raw stdout;
the errors field is absent on exit code 0 and equals
`parseStderrErrors stderr` otherwise. -/
theorem C3_exitCodeInterpretation :
    (∀ (exec : Exec) (pd vp : String) (env : Option String) (result : CommandResult),
      validateProjectPath pd = .ok vp →
      (strTruthy env && !validateEnvironmentName (env.getD "")) = false →
      exec ⟨"run", (if strTruthy env then ["--environment", env.getD ""] else []),
        vp, 600000⟩ = .ok result →
      (buildProject exec pd env).2 = .ok
        { success := result.exitCode == 0
          environment := orDefault env "default"
          output := result.stdout
          errors := if result.exitCode == 0 then none
                    else some (parseStderrErrors result.stderr) }) ∧
    (∀ (exec : Exec) (pd vp target : String) (env : Option String) (result : CommandResult),
      validateProjectPath pd = .ok vp →
      (strTruthy env && !validateEnvironmentName (env.getD "")) = false →
      exec ⟨"run", ["--target", target] ++
        (if strTruthy env then ["--environment", env.getD ""] else []),
        vp, 600000⟩ = .ok result →
      (buildTarget exec pd target env).2 = .ok
        { success := result.exitCode == 0
          environment := orDefault env "default"
          output := result.stdout
          errors := if result.exitCode == 0 then none
                    else some (parseStderrErrors result.stderr) }) ∧
    (∀ (exec : Exec) (pd vp : String) (port env : Option String) (result : CommandResult),
      validateProjectPath pd = .ok vp →
      (strTruthy env && !validateEnvironmentName (env.getD "")) = false →
      (strTruthy port && !validateSerialPort (port.getD "")) = false →
      exec ⟨"run", (["run", "--target", "upload"] ++
        (if strTruthy env then ["--environment", env.getD ""] else []) ++
        (if strTruthy port then ["--upload-port", port.getD ""] else [])).drop 1,
        vp, 300000⟩ = .ok result →
      (uploadFirmware exec pd port env).2 = .ok
        { success := result.exitCode == 0
          port := port
          output := result.stdout
          errors := if result.exitCode == 0 then none
                    else some (parseStderrErrors result.stderr) }) ∧
    (∀ (exec : Exec) (pd vp : String) (port env : Option String) (result : CommandResult),
      validateProjectPath pd = .ok vp →
      (strTruthy env && !validateEnvironmentName (env.getD "")) = false →
      (strTruthy port && !validateSerialPort (port.getD "")) = false →
      exec ⟨"run", (["run", "--target", "upload", "--target", "monitor"] ++
        (if strTruthy env then ["--environment", env.getD ""] else []) ++
        (if strTruthy port then ["--upload-port", port.getD "",
                                 "--monitor-port", port.getD ""] else [])).drop 1,
        vp, 300000⟩ = .ok result →
      (uploadAndMonitor exec pd port env).2 = .ok
        { success := result.exitCode == 0
          port := port
          output := result.stdout
          errors := if result.exitCode == 0 then none
                    else some (parseStderrErrors result.stderr) }) ∧
    (∀ (exec : Exec) (pd vp : String) (port env : Option String) (result : CommandResult),
      validateProjectPath pd = .ok vp →
      (strTruthy env && !validateEnvironmentName (env.getD "")) = false →
      (strTruthy port && !validateSerialPort (port.getD "")) = false →
      exec ⟨"run", (["run", "--target", "uploadfs"] ++
        (if strTruthy env then ["--environment", env.getD ""] else []) ++
        (if strTruthy port then ["--upload-port", port.getD ""] else [])).drop 1,
        vp, 300000⟩ = .ok result →
      (uploadFilesystem exec pd port env).2 = .ok
        { success := result.exitCode == 0
          port := port
          output := result.stdout
          errors := if result.exitCode == 0 then none
                    else some (parseStderrErrors result.stderr) }) := by
  refine ⟨?_, ?_, ?_, ?_, ?_⟩
  · intro exec pd vp env result hv he hx
    simp [buildProject, hv, he, hx]
  · intro exec pd vp target env result hv he hx
    simp [buildTarget, hv, he] at hx ⊢
    simp [hx]
  · intro exec pd vp port env result hv he hp hx
    simp [uploadFirmware, hv, he, hp] at hx ⊢
    simp [hx]
  · intro exec pd vp port env result hv he hp hx
    simp [uploadAndMonitor, hv, he, hp] at hx ⊢
    simp [hx]
  · intro exec pd vp port env result hv he hp hx
    simp [uploadFilesystem, hv, he, hp] at hx ⊢
    simp [hx]

/-- C3 witness: the interpretation theorem applied at concrete inputs, once
for a zero exit code and once for a non-zero one. -/
theorem C3_exitCodeInterpretation_witness :
    (buildProject execOk "/tmp/proj" none).2 =
      .ok ⟨true, "default", "BUILD OK", none⟩ ∧
    (buildProject execFail "/tmp/proj" none).2 =
      .ok ⟨false, "default", "", some ["Error: permission denied"]⟩ := by
  constructor
  · have h := C3_exitCodeInterpretation.1 execOk "/tmp/proj" "/tmp/proj" none
      ⟨"BUILD OK", "", 0⟩ rfl rfl rfl
    simpa using h
  · have h := C3_exitCodeInterpretation.1 execFail "/tmp/proj" "/tmp/proj" none
      ⟨"", "Error: permission denied\n", 1⟩ rfl rfl rfl
    simpa using h

/-- C5: `buildAndUpload` is extensionally equal to `uploadFirmware` — same
trace and same result on every input — and performs at most one executor
invocation, every invocation being the composite upload target
(`--target upload`), never a separate build invocation followed by an upload
invocation. -/
theorem C5_buildAndUpload_is_uploadFirmware (exec : Exec) (pd : String)
    (port env : Option String) :
    buildAndUpload exec pd port env = uploadFirmware exec pd port env ∧
    (buildAndUpload exec pd port env).1.length ≤ 1 ∧
    ∀ req ∈ (buildAndUpload exec pd port env).1,
      req.command = "run" ∧ req.args.take 2 = ["--target", "upload"] := by
  refine ⟨rfl, ?_, ?_⟩
  · unfold buildAndUpload uploadFirmware
    split
    · simp
    · split
      · simp
      · split
        · simp
        · simp
  · intro req hreq
    unfold buildAndUpload uploadFirmware at hreq
    split at hreq
    · simp at hreq
    · split at hreq
      · simp at hreq
      · split at hreq
        · simp at hreq
        · simp at hreq
          subst hreq
          exact ⟨rfl, rfl⟩

/-- C5 witness: the theorem applied at a concrete input on which the
executor is invoked: the single invocation uses the composite target. -/
theorem C5_buildAndUpload_witness :
    buildAndUpload execStub "/tmp/proj" none none =
      uploadFirmware execStub "/tmp/proj" none none ∧
    (⟨"run", ["--target", "upload"], "/tmp/proj", 300000⟩ : ExecRequest).args.take 2 =
      ["--target", "upload"] := by
  refine ⟨(C5_buildAndUpload_is_uploadFirmware execStub "/tmp/proj" none none).1, ?_⟩
  exact ((C5_buildAndUpload_is_uploadFirmware execStub "/tmp/proj" none none).2.2
    ⟨"run", ["--target", "upload"], "/tmp/proj", 300000⟩ (by decide)).2

/-- C6: every handler passes the timeout class of its operation kind on every
input: 30000 ms for the list operation `listTargets`, 600000 ms for the
compilations `buildProject` and `buildTarget`, and 300000 ms for the flash
operations `uploadFirmware`, `uploadAndMonitor` and `uploadFilesystem`. -/
theorem C6_timeoutClasses (exec : Exec) (pd target : String)
    (env port : Option String) :
    ((listTargets exec pd env).1.all (fun r => r.timeout == 30000)) = true ∧
    ((buildProject exec pd env).1.all (fun r => r.timeout == 600000)) = true ∧
    ((buildTarget exec pd target env).1.all (fun r => r.timeout == 600000)) = true ∧
    ((uploadFirmware exec pd port env).1.all (fun r => r.timeout == 300000)) = true ∧
    ((uploadAndMonitor exec pd port env).1.all (fun r => r.timeout == 300000)) = true ∧
    ((uploadFilesystem exec pd port env).1.all (fun r => r.timeout == 300000)) = true := by
  refine ⟨?_, ?_, ?_, ?_, ?_, ?_⟩
  · unfold listTargets
    split
    · simp
    · simp
  · unfold buildProject
    split
    · simp
    · split
      · simp
      · simp
  · unfold buildTarget
    split
    · simp
    · split
      · simp
      · simp
  · unfold uploadFirmware
    split
    · simp
    · split
      · simp
      · split
        · simp
        · simp
  · unfold uploadAndMonitor
    split
    · simp
    · split
      · simp
      · split
        · simp
        · simp
  · unfold uploadFilesystem
    split
    · simp
    · split
      · simp
      · split
        · simp
        · simp

/-- C7: identifier case is preserved and significant end to end. For an
accepted (truthy, valid) environment, `buildProject` places the exact input
string after `--environment` in the argument vector and returns it unchanged
in the result's environment field; two environments that are different
strings (in particular, differing only in letter case) produce different
argument vectors. -/
theorem C7_environmentCasePreserved (exec : Exec) (pd vp env : String)
    (hv : validateProjectPath pd = .ok vp)
    (ht : strTruthy (some env) = true)
    (he : validateEnvironmentName env = true) :
    (buildProject exec pd (some env)).1 =
      [⟨"run", ["--environment", env], vp, 600000⟩] ∧
    (∀ result : CommandResult,
      exec ⟨"run", ["--environment", env], vp, 600000⟩ = .ok result →
      ∃ r, (buildProject exec pd (some env)).2 = .ok r ∧ r.environment = env) ∧
    (∀ env₂ : String, env₂ ≠ env →
      (buildProject exec pd (some env₂)).1 ≠ (buildProject exec pd (some env)).1) := by
  refine ⟨?_, ?_, ?_⟩
  · simp [buildProject, hv, ht, he]
  · intro result hx
    have hemp : env.data.isEmpty = false := by simpa [strTruthy] using ht
    refine ⟨{ success := result.exitCode == 0
              environment := orDefault (some env) "default"
              output := result.stdout
              errors := if result.exitCode == 0 then none
                        else some (parseStderrErrors result.stderr) }, ?_, ?_⟩
    · simp [buildProject, hv, ht, he, hx]
    · simp [orDefault, hemp]
  · intro env₂ hne
    simp only [buildProject, hv]
    split
    · simp [ht, he]
    · simp [ht, he]
      by_cases h2 : strTruthy (some env₂) = true
      · simp [h2]
        exact fun h => absurd h hne
      · simp [Bool.not_eq_true] at h2
        simp [h2]

/-- C7 witness: the theorem applied at the concrete environment "MyEnv": the
exact mixed-case string reaches the argument vector, and the case variant
"myenv" yields a different argument vector. -/
theorem C7_environmentCasePreserved_witness :
    (buildProject execStub "/tmp/proj" (some "MyEnv")).1 =
      [⟨"run", ["--environment", "MyEnv"], "/tmp/proj", 600000⟩] ∧
    (buildProject execStub "/tmp/proj" (some "myenv")).1 ≠
      (buildProject execStub "/tmp/proj" (some "MyEnv")).1 := by
  have h := C7_environmentCasePreserved execStub "/tmp/proj" "/tmp/proj" "MyEnv"
    rfl rfl (by decide)
  exact ⟨h.1, h.2.2 "myenv" (by decide)⟩

/-- C8 counterexample: the claim's "for every call to uploadAndMonitor,
exactly one Executor invocation occurs" fails on a call rejected by
validation: with an empty projectDir the handler throws immediately and
performs zero executor invocations. -/
theorem C8_rejectedCallSpawnsNothing :
    uploadAndMonitor execStub "" none none =
      ([], .error (.invalidPath "InvalidPath: empty path")) ∧
    (uploadAndMonitor execStub "" none none).1.length = 0 :=
  ⟨rfl, rfl⟩

/-- C8 (amended): on every call of `uploadAndMonitor` whose projectDir,
environment and port pass validation, exactly one executor invocation
occurs; its argument vector begins with `--target upload --target monitor`
(the leading "run" of the locally built vector having been removed by
`args.slice(1)`), and a supplied truthy port is appended under both
`--upload-port` and `--monitor-port` with the same value. A call rejected
by validation performs zero invocations. -/
theorem C8_uploadAndMonitor_vector (exec : Exec) (pd vp : String)
    (port env : Option String)
    (hv : validateProjectPath pd = .ok vp)
    (he : (strTruthy env && !validateEnvironmentName (env.getD "")) = false)
    (hp : (strTruthy port && !validateSerialPort (port.getD "")) = false) :
    (uploadAndMonitor exec pd port env).1 =
      [⟨"run",
        ["--target", "upload", "--target", "monitor"] ++
          (if strTruthy env then ["--environment", env.getD ""] else []) ++
          (if strTruthy port then ["--upload-port", port.getD "",
                                   "--monitor-port", port.getD ""] else []),
        vp, 300000⟩] ∧
    (∀ req ∈ (uploadAndMonitor exec pd port env).1,
      req.args.take 4 = ["--target", "upload", "--target", "monitor"]) ∧
    (∀ p, port = some p → strTruthy port = true →
      (uploadAndMonitor exec pd port env).1 =
        [⟨"run",
          ["--target", "upload", "--target", "monitor"] ++
            (if strTruthy env then ["--environment", env.getD ""] else []) ++
            ["--upload-port", p, "--monitor-port", p],
          vp, 300000⟩]) := by
  have htrace : (uploadAndMonitor exec pd port env).1 =
      [⟨"run",
        ["--target", "upload", "--target", "monitor"] ++
          (if strTruthy env then ["--environment", env.getD ""] else []) ++
          (if strTruthy port then ["--upload-port", port.getD "",
                                   "--monitor-port", port.getD ""] else []),
        vp, 300000⟩] := by
    simp [uploadAndMonitor, hv, he, hp]
  refine ⟨htrace, ?_, ?_⟩
  · intro req hreq
    rw [htrace] at hreq
    simp at hreq
    subst hreq
    cases h : strTruthy env <;> cases h2 : strTruthy port <;> simp [h, h2]
  · intro p hps hpt
    rw [hps] at hpt
    rw [htrace, hps]
    simp [hpt]

/-- C8 witness: the theorem applied with the concrete port /dev/ttyUSB0: a
single invocation whose vector starts with the two targets and carries the
port under both flags. -/
theorem C8_uploadAndMonitor_witness :
    (uploadAndMonitor execStub "/tmp/proj" (some "/dev/ttyUSB0") none).1 =
      [⟨"run", ["--target", "upload", "--target", "monitor",
                "--upload-port", "/dev/ttyUSB0", "--monitor-port", "/dev/ttyUSB0"],
        "/tmp/proj", 300000⟩] := by
  have h := (C8_uploadAndMonitor_vector execStub "/tmp/proj" "/tmp/proj"
    (some "/dev/ttyUSB0") none rfl rfl (by decide)).2.2 "/dev/ttyUSB0" rfl rfl
  simpa using h

/-- C9: when the executor outcome has exit code 0, `listTargets` returns
exactly the trimmed non-empty stdout lines that do not start with
"Environment" and do not contain a colon, in stdout order; on a non-zero
exit code it throws a `BuildError` whose context carries the stderr text,
and returns no list. -/
theorem C9_listTargets_parsing (exec : Exec) (pd vp : String)
    (env : Option String) (result : CommandResult)
    (hv : validateProjectPath pd = .ok vp)
    (hx : exec ⟨"run", ["--list-targets"] ++
      (if strTruthy env then ["--environment", env.getD ""] else []),
      vp, 30000⟩ = .ok result) :
    (result.exitCode = 0 →
      (listTargets exec pd env).2 = .ok
        (((jsSplit result.stdout '\n').map jsTrim).filter
          (fun t => !jsIsEmpty t && !jsStartsWith t "Environment" &&
            !jsIncludesChar t ':'))) ∧
    (result.exitCode ≠ 0 →
      (listTargets exec pd env).2 = .error (.buildError "Failed to list targets"
        [("projectDir", some pd), ("stderr", some result.stderr)])) := by
  constructor
  · intro h0
    simp only [List.cons_append, List.nil_append] at hx
    simp [listTargets, hv, hx, h0]
  · intro hne
    simp only [List.cons_append, List.nil_append] at hx
    simp [listTargets, hv, hx, hne]

/-- An executor stub producing a target listing on exit code 0. -/
def execTargets : Exec :=
  fun _ => .ok ⟨"Environment esp32dev\nupload\nmonitor\nerror: x\n", "", 0⟩

/-- An executor stub that exits 2 with stderr "boom". -/
def execExit2 : Exec := fun _ => .ok ⟨"", "boom", 2⟩

/-- C9 witness: the theorem applied at a concrete stdout — the header line,
the colon line and the blank line are dropped, the two targets survive in
order — and at a concrete failing outcome, whose stderr lands in the thrown
error's context. -/
theorem C9_listTargets_witness :
    (listTargets execTargets "/tmp/proj" none).2 = .ok ["upload", "monitor"] ∧
    (listTargets execExit2 "/tmp/proj" none).2 =
      .error (.buildError "Failed to list targets"
        [("projectDir", some "/tmp/proj"), ("stderr", some "boom")]) := by
  constructor
  · have h := (C9_listTargets_parsing execTargets "/tmp/proj" "/tmp/proj" none
      ⟨"Environment esp32dev\nupload\nmonitor\nerror: x\n", "", 0⟩ rfl rfl).1 rfl
    rw [h]
    rfl
  · have h := (C9_listTargets_parsing execExit2 "/tmp/proj" "/tmp/proj" none
      ⟨"", "boom", 2⟩ rfl rfl).2 (by decide)
    exact h

/-- C4: the `CallToolRequestSchema` handler answers every request: the
response is the serialized payload unmarked when the `try` block succeeds,
and a content result marked `isError := true` carrying the human-readable
message when anything was thrown — including an unknown tool name — so no
fault propagates uncaught. -/
theorem C4_everyRequestAnswered (exec : Exec)
    (other : String → RawToolArgs → Except ThrownError String)
    (searchLib : String → Int → Except ThrownError String)
    (name : String) (args : RawToolArgs) :
    ((∃ payload, dispatchToolCall exec other searchLib name args = .ok payload ∧
        handleCallToolRequest exec other searchLib name args = ⟨payload, false⟩) ∨
     (∃ e, dispatchToolCall exec other searchLib name args = .error e ∧
        handleCallToolRequest exec other searchLib name args =
          ⟨"Error: " ++ formatPlatformIOError e, true⟩)) ∧
    (name ∉ ["build_project", "clean_project", "upload_firmware",
             "upload_filesystem", "search_libraries"] →
     name ∉ otherToolNames →
      handleCallToolRequest exec other searchLib name args =
        ⟨"Error: Unknown tool: " ++ name, true⟩) := by
  constructor
  · cases h : dispatchToolCall exec other searchLib name args with
    | ok payload =>
      exact Or.inl ⟨payload, rfl, by simp [handleCallToolRequest, h]⟩
    | error e =>
      exact Or.inr ⟨e, rfl, by simp [handleCallToolRequest, h]⟩
  · intro hknown hother
    simp only [List.mem_cons, List.mem_singleton, not_or] at hknown
    obtain ⟨h1, h2, h3, h4, h5, -⟩ := hknown
    simp [handleCallToolRequest, dispatchToolCall, h1, h2, h3, h4, h5, hother,
      formatPlatformIOError]
    rw [← String.append_assoc]
    rfl

/-- An oracle stub for the tool cases whose handlers are outside the
modelled source files. -/
def otherStub : String → RawToolArgs → Except ThrownError String := fun _ _ => .ok "ok"

/-- An oracle stub for the searchLibraries handler. -/
def searchStub : String → Int → Except ThrownError String := fun _ _ => .ok "libs"

/-- C4 witness: the theorem applied at the unknown tool name "frobnicate":
the response is a marked error result carrying the name, not a fault. -/
theorem C4_everyRequestAnswered_witness :
    handleCallToolRequest execStub otherStub searchStub "frobnicate"
      ⟨none, none, none, none, none⟩ =
      ⟨"Error: Unknown tool: frobnicate", true⟩ := by
  exact (C4_everyRequestAnswered execStub otherStub searchStub "frobnicate"
    ⟨none, none, none, none, none⟩).2 (by decide) (by decide)

/-- C10 counterexample: the claim's "always invoked with a defined positive
limit" fails — a caller-supplied non-positive limit such as -3 passes the
schema unchanged, so the handler is invoked with a non-positive limit. -/
theorem C10_nonPositiveLimitPassesThrough :
    parseSearchLibrariesParams ⟨none, none, none, some "wifi", some (-3)⟩ =
      .ok ("wifi", -3) ∧
    ¬((0 : Int) < -3) := ⟨rfl, by decide⟩

/-- C10 (amended): when the limit parameter is absent, schema parsing
supplies the default 20 — a positive value — so the searchLibraries handler
is always invoked with a defined limit; a caller-supplied limit is passed
through unchanged, with no positivity guarantee for it. -/
theorem C10_limitDefaulting (a : RawToolArgs) (q : String)
    (hq : a.query = some q) (hne : jsIsEmpty q = false) :
    (a.limit = none → parseSearchLibrariesParams a = .ok (q, 20) ∧ ((0 : Int) < 20)) ∧
    (∀ l, a.limit = some l → parseSearchLibrariesParams a = .ok (q, l)) ∧
    (∃ limit, parseSearchLibrariesParams a = .ok (q, limit)) ∧
    (∀ (exec : Exec) (other : String → RawToolArgs → Except ThrownError String)
        (searchLib : String → Int → Except ThrownError String),
      dispatchToolCall exec other searchLib "search_libraries" a =
        searchLib q (match a.limit with | none => 20 | some l => l)) := by
  refine ⟨?_, ?_, ?_, ?_⟩
  · intro hl
    simp [parseSearchLibrariesParams, hq, hne, hl]
  · intro l hl
    simp [parseSearchLibrariesParams, hq, hne, hl]
  · cases hl : a.limit with
    | none => exact ⟨20, by simp [parseSearchLibrariesParams, hq, hne, hl]⟩
    | some l => exact ⟨l, by simp [parseSearchLibrariesParams, hq, hne, hl]⟩
  · intro exec other searchLib
    cases hl : a.limit with
    | none => simp [dispatchToolCall, parseSearchLibrariesParams, hq, hne, hl]
    | some l => simp [dispatchToolCall, parseSearchLibrariesParams, hq, hne, hl]

/-- C10 witness: the amended theorem applied at a concrete query — an absent
limit parses to 20, a supplied limit of 5 passes through. -/
theorem C10_limitDefaulting_witness :
    parseSearchLibrariesParams ⟨none, none, none, some "wifi", none⟩ = .ok ("wifi", 20) ∧
    parseSearchLibrariesParams ⟨none, none, none, some "wifi", some 5⟩ = .ok ("wifi", 5) := by
  constructor
  · exact ((C10_limitDefaulting ⟨none, none, none, some "wifi", none⟩ "wifi" rfl rfl).1 rfl).1
  · exact (C10_limitDefaulting ⟨none, none, none, some "wifi", some 5⟩ "wifi" rfl rfl).2.1 5 rfl
